import Mathlib

/-!
Verification of the fractal genesis-bootstrap module and its account/RPC
helpers against a shallow embedding.

The genesis builder itself (SetupGenesisBlock, Genesis.ToBlock,
Genesis.Commit, DefaultGenesis, the compatibility checker) is not present
under src/ — only its test file genesis_test.go is — so those operations are
modelled from the spec (sections 4.1–4.5, 6 of spec.md), with doc comments
marking each such definition.  GetGeneisis and CompareNonce are embedded
directly from src/plugin/account.go (which also carries the rpcapi part of
the file).
-/

namespace Fractal

/-- Modelled from the spec: ChainConfig — chain identifier plus an ordered
list of named fork-activation thresholds (none = "never activates").
The consensus-engine sub-record is opaque and not needed by any claim. -/
structure ChainConfig where
  chainID : Nat
  forks : List (String × Option Nat)
deriving DecidableEq

/-- Modelled from the spec: AllocAccount — name, initial balances
(asset id → amount), optional code payload. -/
structure AllocAccount where
  name : String
  balances : List (Nat × Nat)
  code : List Nat
deriving DecidableEq

/-- Modelled from the spec: AllocAsset — asset id, owner account,
total supply, symbol metadata. -/
structure AllocAsset where
  assetID : Nat
  owner : String
  supply : Nat
  symbol : String
deriving DecidableEq

/-- Modelled from the spec: AllocCandidate — account name and stake for the
initial validator set. -/
structure AllocCandidate where
  name : String
  stake : Nat
deriving DecidableEq

/-- Modelled from the spec: GenesisDescriptor — one optional ChainConfig,
allocation sets, and the genesis header fields. -/
structure Genesis where
  config : Option ChainConfig
  allocAccounts : List AllocAccount
  allocAssets : List AllocAsset
  allocCandidates : List AllocCandidate
  difficulty : Nat
  gasLimit : Nat
  timestamp : Nat
  extra : List Nat
deriving DecidableEq

/-- Modelled from the spec: the world state produced by materializing a
descriptor's allocations (accounts, assets, candidates), kept in the fixed
deterministic (sorted) order the State Materializer writes them in. -/
structure WorldState where
  accounts : List AllocAccount
  assets : List AllocAsset
  candidates : List AllocCandidate
deriving DecidableEq

/-- Insertion step for the deterministic sort used by the materializer. -/
def insertLe {α : Type} (le : α → α → Bool) (a : α) : List α → List α
  | [] => [a]
  | b :: bs => if le a b then a :: b :: bs else b :: insertLe le a bs

/-- Deterministic insertion sort with a boolean comparator. -/
def sortLe {α : Type} (le : α → α → Bool) : List α → List α
  | [] => []
  | a :: as => insertLe le a (sortLe le as)

/-- Modelled from the spec: account-name validation is delegated to the
account subsystem; we model it as "non-empty and at most 31 chars". -/
def validName (s : String) : Bool :=
  decide (0 < s.length) && decide (s.length ≤ 31)

/-- Modelled from the spec: the State Materializer — applies the
descriptor's allocations onto an empty state in sorted order; fails (whole
materialization aborts) when an account name is invalid or an asset
references an unknown owner account. -/
def materialize (g : Genesis) : Except String WorldState :=
  if g.allocAccounts.all (fun a => validName a.name) = false then
    Except.error "invalid account name"
  else if g.allocAssets.all
      (fun a => g.allocAccounts.any (fun acc => decide (acc.name = a.owner))) = false then
    Except.error "asset owner not found"
  else
    Except.ok
      { accounts := sortLe (fun x y => decide (x.name ≤ y.name)) g.allocAccounts
        assets := sortLe (fun x y => decide (x.assetID ≤ y.assetID)) g.allocAssets
        candidates := sortLe (fun x y => decide (x.name ≤ y.name)) g.allocCandidates }

/-- Mixing step of the model hash (stands in for the canonical hash; the
embedding only needs a deterministic pure function of its input). -/
def mix (h x : Nat) : Nat := h * 1000003 + x + 1

/-- Model hash of a string. -/
def hashString (s : String) : Nat := s.data.foldl (fun h c => mix h c.toNat) 7

/-- Model hash of a byte list. -/
def hashListNat (l : List Nat) : Nat := l.foldl mix 11

/-- Model hash of an optional block number. -/
def hashOptNat : Option Nat → Nat
  | none => 0
  | some n => n + 1

/-- Modelled from the spec: digest of a ChainConfig — covers every field, so
changing any config field changes the genesis hash. -/
def hashConfig (c : ChainConfig) : Nat :=
  c.forks.foldl (fun h f => mix (mix h (hashString f.1)) (hashOptNat f.2))
    (mix 13 c.chainID)

/-- Model hash of an allocated account. -/
def hashAccount (a : AllocAccount) : Nat :=
  mix (mix (hashString a.name)
        (a.balances.foldl (fun h p => mix (mix h p.1) p.2) 17))
    (hashListNat a.code)

/-- Model hash of an allocated asset. -/
def hashAsset (a : AllocAsset) : Nat :=
  mix (mix (mix a.assetID (hashString a.owner)) a.supply) (hashString a.symbol)

/-- Model hash of an allocated candidate. -/
def hashCandidate (c : AllocCandidate) : Nat :=
  mix (hashString c.name) c.stake

/-- Modelled from the spec: the state root — a digest summarizing the whole
materialized world state. -/
def stateRoot (w : WorldState) : Nat :=
  mix (mix (w.accounts.foldl (fun h a => mix h (hashAccount a)) 19)
        (w.assets.foldl (fun h a => mix h (hashAsset a)) 23))
    (w.candidates.foldl (fun h c => mix h (hashCandidate c)) 29)

/-- Modelled from the spec: genesis block header — block number, state root,
ChainConfig digest and the descriptor's header fields. -/
structure Header where
  number : Nat
  stateRoot : Nat
  configDigest : Nat
  difficulty : Nat
  gasLimit : Nat
  time : Nat
  extra : List Nat
deriving DecidableEq

/-- Modelled from the spec: the canonical hash is a pure function of the
header contents. -/
def hashHeader (h : Header) : Nat :=
  mix (mix (mix (mix (mix (mix 31 h.number) h.stateRoot) h.configDigest)
          h.difficulty) h.gasLimit)
    (mix h.time (hashListNat h.extra))

/-- Modelled from the spec: a genesis block is its header (the body is empty
at height zero). -/
structure Block where
  head : Header
deriving DecidableEq

/-- Hash of a block: the canonical hash of its header. -/
def Block.hash (b : Block) : Nat := hashHeader b.head

/-- Block number of a block. -/
def Block.number (b : Block) : Nat := b.head.number

/-- Errors of the genesis module, a tagged-variant error type as the spec's
design notes prescribe. -/
inductive GenesisError where
  | noConfig
  | allocation (msg : String)
  | genesisMismatch (stored candidate : Nat)
deriving DecidableEq

/-- Modelled from the spec: the Block Builder (Genesis.ToBlock) —
materializes the descriptor against a fresh empty state, assembles the
header (number zero, state root, config digest, header fields) and computes
its hash; fails when the ChainConfig is absent or an allocation is invalid.
Pure: never writes to the Persistence Layer. -/
def Genesis.ToBlock (g : Genesis) : Except GenesisError (Block × WorldState) :=
  match g.config with
  | none => Except.error GenesisError.noConfig
  | some cfg =>
    match materialize g with
    | Except.error m => Except.error (GenesisError.allocation m)
    | Except.ok w =>
      Except.ok
        (⟨{ number := 0, stateRoot := stateRoot w, configDigest := hashConfig cfg,
            difficulty := g.difficulty, gasLimit := g.gasLimit,
            time := g.timestamp, extra := g.extra }⟩, w)

/-- Modelled from the spec: the StoredState triple owned by the Persistence
Layer — blocks keyed by (hash, number), ChainConfigs keyed by hash, world
states keyed by state root. -/
structure DB where
  blocks : List ((Nat × Nat) × Block)
  configs : List (Nat × ChainConfig)
  states : List (Nat × WorldState)
deriving DecidableEq

/-- A fresh, empty database. -/
def emptyDB : DB := ⟨[], [], []⟩

/-- Association-list lookup by key. -/
def lookupBy {κ β : Type} [DecidableEq κ] (k : κ) (l : List (κ × β)) : Option β :=
  (l.find? (fun p => decide (p.1 = k))).map Prod.snd

/-- Persistence Layer read: block by hash and number. -/
def readBlock (db : DB) (h n : Nat) : Option Block := lookupBy (h, n) db.blocks

/-- Persistence Layer read: ChainConfig by block hash. -/
def readChainConfig (db : DB) (h : Nat) : Option ChainConfig := lookupBy h db.configs

/-- Persistence Layer write: a block, keyed by its own hash and number. -/
def writeBlock (db : DB) (b : Block) : DB :=
  { db with blocks := ((b.hash, b.number), b) :: db.blocks }

/-- Persistence Layer write: a ChainConfig keyed by block hash. -/
def writeChainConfig (db : DB) (h : Nat) (c : ChainConfig) : DB :=
  { db with configs := (h, c) :: db.configs }

/-- Persistence Layer write: a world state keyed by its root. -/
def writeState (db : DB) (root : Nat) (w : WorldState) : DB :=
  { db with states := (root, w) :: db.states }

/-- The stored genesis: hash and block of the first entry recorded at height
zero, if any. -/
def storedGenesis (db : DB) : Option (Nat × Block) :=
  (db.blocks.find? (fun p => decide (p.1.2 = 0))).map (fun p => (p.1.1, p.2))

/-- Modelled from the spec: the default ChainConfig, a process-wide
constant. -/
def DefaultChainconfig : ChainConfig := { chainID := 1, forks := [] }

/-- Modelled from the spec: the fixed allocation set of the default
descriptor — accounts. -/
def DefaultGenesisAccounts : List AllocAccount :=
  [{ name := "fractal.admin", balances := [(0, 10000000000)], code := [] }]

/-- Modelled from the spec: the fixed allocation set of the default
descriptor — assets. -/
def DefaultGenesisAssets : List AllocAsset :=
  [{ assetID := 0, owner := "fractal.admin", supply := 10000000000, symbol := "ft" }]

/-- Modelled from the spec: the fixed allocation set of the default
descriptor — candidates. -/
def DefaultGenesisCandidates : List AllocCandidate := []

/-- Modelled from the spec: the hard-coded default mainnet descriptor, a
fixed versioned built-in value. -/
def DefaultGenesis : Genesis :=
  { config := some DefaultChainconfig
    allocAccounts := DefaultGenesisAccounts
    allocAssets := DefaultGenesisAssets
    allocCandidates := DefaultGenesisCandidates
    difficulty := 0
    gasLimit := 30000000
    timestamp := 1555000000
    extra := [102, 114, 97, 99, 116, 97, 108] }

/-- Modelled from the spec: Genesis.Commit — materializes the descriptor and
persists block, world state and ChainConfig as one logical unit, returning
the genesis hash. -/
def Genesis.Commit (g : Genesis) (db : DB) : Except GenesisError (Nat × DB) :=
  match g.ToBlock with
  | Except.error e => Except.error e
  | Except.ok (b, w) =>
    Except.ok (b.hash,
      writeChainConfig (writeBlock (writeState db (stateRoot w) w) b) b.hash
        (g.config.getD DefaultChainconfig))

/-- Result of the Setup Reconciler: the dual-return contract (best-known
config and hash are reported even alongside an error) plus the resulting
database, made explicit so frame conditions are provable. -/
structure SetupResult where
  config : ChainConfig
  hash : Nat
  err : Option GenesisError
  db : DB
deriving DecidableEq

/-- Modelled from the spec: incompatibility test for one stored fork entry —
already activated at or below the current head under the stored config, and
given a different activation height by the candidate config. -/
def lookupFork (c : ChainConfig) (name : String) : Option Nat :=
  match c.forks.find? (fun f => decide (f.1 = name)) with
  | none => none
  | some f => f.2

/-- Incompatibility of a single stored fork entry against the candidate
config at the current head. -/
def forkIncompatible (candidate : ChainConfig) (head : Nat) (f : String × Option Nat) : Bool :=
  match f.2 with
  | none => false
  | some s => decide (s ≤ head) && decide (¬ lookupFork candidate f.1 = some s)

/-- Modelled from the spec: ConfigCompatError — fork name, stored height,
candidate height and current height. -/
structure ConfigCompatError where
  forkName : String
  storedHeight : Nat
  candidateHeight : Option Nat
  currentHeight : Nat
deriving DecidableEq

/-- Recursion of the Compatibility Checker over the stored config's ordered
fork list. -/
def checkCompatibleAux (candidate : ChainConfig) (head : Nat) :
    List (String × Option Nat) → Option ConfigCompatError
  | [] => none
  | f :: rest =>
    if forkIncompatible candidate head f then
      some { forkName := f.1, storedHeight := f.2.getD 0,
             candidateHeight := lookupFork candidate f.1, currentHeight := head }
    else checkCompatibleAux candidate head rest

/-- Modelled from the spec: the Compatibility Checker — reports the first
fork, in protocol activation order, that is already activated under the
stored config and whose candidate activation height differs. -/
def checkCompatible (stored candidate : ChainConfig) (head : Nat) :
    Option ConfigCompatError :=
  checkCompatibleAux candidate head stored.forks

/-- Modelled from the spec: the Setup Reconciler (SetupGenesisBlock), the
startup state machine of spec section 4.4 over (stored genesis?, user
descriptor?).  On the case-6 hash mismatch the Compatibility Checker is
consulted for diagnostics only; the outcome is GenesisMismatchError either
way and nothing is written. -/
def SetupGenesisBlock (db : DB) (genesis : Option Genesis) : SetupResult :=
  match genesis with
  | some g =>
    match g.config with
    | none => { config := DefaultChainconfig, hash := 0,
                err := some GenesisError.noConfig, db := db }
    | some cfg =>
      match storedGenesis db with
      | none =>
        match g.Commit db with
        | Except.error e => { config := cfg, hash := 0, err := some e, db := db }
        | Except.ok (h, db1) => { config := cfg, hash := h, err := none, db := db1 }
      | some (storedHash, _) =>
        match g.ToBlock with
        | Except.error e => { config := cfg, hash := 0, err := some e, db := db }
        | Except.ok (b, _) =>
          if b.hash = storedHash then
            { config := cfg, hash := storedHash, err := none,
              db := writeChainConfig db storedHash cfg }
          else
            { config := cfg, hash := b.hash,
              err := some (GenesisError.genesisMismatch storedHash b.hash), db := db }
  | none =>
    match storedGenesis db with
    | none =>
      match DefaultGenesis.Commit db with
      | Except.error e => { config := DefaultChainconfig, hash := 0,
                            err := some e, db := db }
      | Except.ok (h, db1) => { config := DefaultChainconfig, hash := h,
                                err := none, db := db1 }
    | some (storedHash, _) =>
      { config := (readChainConfig db storedHash).getD DefaultChainconfig,
        hash := storedHash, err := none, db := db }

/-- Well-formedness of the persisted block map: every block is stored under
its own hash and number (what Commit maintains). -/
def DB.wf (db : DB) : Prop :=
  ∀ p ∈ db.blocks, p.2.hash = p.1.1 ∧ p.2.number = p.1.2

/-- The model counterpart of the published default genesis hash: this names
the modelled default descriptor's materialized hash under the model hash
function, playing the role that defaultgenesisBlockHash (the Keccak-256
constant 0x057061a2fa8ae022068406f03598d3c154e9558247d996250ae9d7ce5a2adb86
of genesis_test.go) plays in the repository.  It is not that Keccak
constant: the real builder, allocation data and hash function are not in
the sources, so the repository's value cannot be recomputed here; this
constant serves only to name the default hash in the reconciler theorems. -/
def defaultgenesisBlockHash : Nat :=
  7000551020048452116126580790513724879983085836601796497044815117715385048244951080325673280493589409934242592958197317192405259

/-- The pair materialized from the default descriptor (total projection of
Genesis.ToBlock, used only to name the default block and state). -/
def defaultToBlock : Block × WorldState :=
  match DefaultGenesis.ToBlock with
  | Except.ok p => p
  | Except.error _ => (⟨{ number := 0, stateRoot := 0, configDigest := 0,
                          difficulty := 0, gasLimit := 0, time := 0, extra := [] }⟩,
                       ⟨[], [], []⟩)

/-- The genesis block of the default descriptor. -/
def defaultGenesisBlock : Block := defaultToBlock.1

/-- The materialized world state of the default descriptor. -/
def defaultGenesisState : WorldState := defaultToBlock.2

/-! Witness data mirroring genesis_test.go: two custom descriptors that are
the default descriptor with chain ids 5 and 6. -/

/-- The custom ChainConfig of genesis_test.go: the default with chain id 5. -/
def customConfig : ChainConfig := { DefaultChainconfig with chainID := 5 }

/-- The custom descriptor of genesis_test.go (chain id 5). -/
def customg : Genesis := { DefaultGenesis with config := some customConfig }

/-- The previously committed ChainConfig of genesis_test.go: chain id 6. -/
def oldCustomConfig : ChainConfig := { DefaultChainconfig with chainID := 6 }

/-- The previously committed descriptor of genesis_test.go (chain id 6). -/
def oldcustomg : Genesis := { DefaultGenesis with config := some oldCustomConfig }

/-- The pair materialized from a descriptor, with a dummy default on error
(used only to name witness blocks). -/
def toBlockD (g : Genesis) : Block × WorldState :=
  match g.ToBlock with
  | Except.ok p => p
  | Except.error _ => (⟨{ number := 0, stateRoot := 0, configDigest := 0,
                          difficulty := 0, gasLimit := 0, time := 0, extra := [] }⟩,
                       ⟨[], [], []⟩)

/-- The database of the mismatch test: the chain-id-6 descriptor committed
onto an empty database. -/
def dbWithOldCustom : DB :=
  match oldcustomg.Commit emptyDB with
  | Except.ok p => p.2
  | Except.error _ => emptyDB

/-- The empty descriptor of the "genesis without ChainConfig" test case
(new Genesis in Go: all fields at their zero values). -/
def emptyGenesis : Genesis :=
  { config := none, allocAccounts := [], allocAssets := [], allocCandidates := []
    difficulty := 0, gasLimit := 0, timestamp := 0, extra := [] }

/-! Compatibility-checker witness data, from the spec's worked example:
fork F active at height 100, fork G scheduled at 500, current height 150. -/

/-- Stored config of the checker example: F at 100, G at 500. -/
def storedExample : ChainConfig :=
  { chainID := 1, forks := [("F", some 100), ("G", some 500)] }

/-- Candidate config moving the already-activated fork F to height 200. -/
def candMoved : ChainConfig :=
  { chainID := 1, forks := [("F", some 200), ("G", some 500)] }

/-- Candidate config changing only the future fork G from 500 to 600. -/
def candFuture : ChainConfig :=
  { chainID := 1, forks := [("F", some 100), ("G", some 600)] }

/-! Embedding of src/plugin/account.go (rpcapi part): GetGeneisis. -/

/-- Backend as GetGeneisis consumes it: BlockByNumber can return a block or
an error. -/
structure Backend where
  blockByNumber : Nat → Except String Block

/-- GetGeneisis from src/plugin/account.go lines 395–403: read block 0 from
the backend; on error return the (empty) map; otherwise JSON-unmarshal the
header's extra-data into the map, leaving it empty when parsing fails.  The
JSON decoder itself is external (encoding/json), so it is a parameter. -/
def GetGeneisis (parse : List Nat → Option (List (String × String)))
    (b : Backend) : List (String × String) :=
  match b.blockByNumber 0 with
  | Except.error _ => []
  | Except.ok g => (parse g.head.extra).getD []

/-! Embedding of src/plugin/account.go: CompareNonce. -/

/-- The account manager as the nonce helpers see it: readable per-account
nonces; a missing account makes GetNonce fail. -/
structure AccountManager where
  nonces : List (String × Nat)

/-- GetNonce: read the stored nonce of an account, failing when the account
does not exist. -/
def AccountManager.GetNonce (am : AccountManager) (name : String) : Except String Nat :=
  match lookupBy name am.nonces with
  | some n => Except.ok n
  | none => Except.error "account not exist"

/-- CompareNonce from src/plugin/account.go lines 24–35: propagate a
GetNonce error; report "nonce too high" when the stored nonce is below the
action nonce, "nonce too low" when above, nil when equal.  The Go function
only reads state, so the embedding is pure. -/
def CompareNonce (am : AccountManager) (name : String) (actionNonce : Nat) :
    Option String :=
  match am.GetNonce name with
  | Except.error e => some e
  | Except.ok nonce =>
    if nonce < actionNonce then some "nonce too high"
    else if nonce > actionNonce then some "nonce too low"
    else none

/-- The database holding the committed default genesis (the "mainnet block
in DB" test case). -/
def dbWithDefault : DB :=
  match DefaultGenesis.Commit emptyDB with
  | Except.ok p => p.2
  | Except.error _ => emptyDB

/-- The block materialized from the chain-id-6 descriptor. -/
def oldCustomBlock : Block := (toBlockD oldcustomg).1

/-- The block materialized from the chain-id-5 descriptor. -/
def customBlock : Block := (toBlockD customg).1

/-- The world state materialized from the chain-id-5 descriptor. -/
def customState : WorldState := (toBlockD customg).2

/-- The statement that a compatibility error reports exactly one stored fork
entry: its name, its (already-activated) stored height, the candidate's
height for it, and the current height. -/
def errMatchesFork (candidate : ChainConfig) (head : Nat)
    (f : String × Option Nat) (e : ConfigCompatError) : Prop :=
  f.1 = e.forkName ∧ f.2 = some e.storedHeight ∧ e.storedHeight ≤ head ∧
  lookupFork candidate e.forkName = e.candidateHeight ∧
  ¬ e.candidateHeight = some e.storedHeight ∧ e.currentHeight = head

/-- A concrete backend whose block 0 is the default genesis block. -/
def witnessBackendOk : Backend :=
  ⟨fun n => if n = 0 then Except.ok defaultGenesisBlock else Except.error "no block"⟩

/-- A concrete JSON decoder stub used in witnesses: recognizes exactly the
default extra-data payload. -/
def witnessParse : List Nat → Option (List (String × String)) :=
  fun l => if l = DefaultGenesis.extra then some [("name", "fractal")] else none

/-- A concrete account manager holding one account with nonce 5. -/
def witnessAM : AccountManager := ⟨[("alice", 5)]⟩

/-! Helper lemmas. -/

/-- If the first element satisfying p is a, a also satisfies the stronger
predicate q, and q implies p, then a is also the first element satisfying
q. -/
theorem find?_of_stronger {α : Type} (p q : α → Bool) (l : List α) (a : α)
    (h : l.find? p = some a) (hqa : q a = true)
    (himp : ∀ x, q x = true → p x = true) : l.find? q = some a := by
  induction l with
  | nil => simp at h
  | cons x xs ih =>
    by_cases hp : p x = true
    · rw [List.find?_cons_of_pos _ hp] at h
      have hax : x = a := by injection h
      subst hax
      exact List.find?_cons_of_pos _ hqa
    · have hq : ¬ q x = true := fun hq => hp (himp x hq)
      rw [List.find?_cons_of_neg _ hp] at h
      rw [List.find?_cons_of_neg _ hq]
      exact ih h

/-- The stored genesis block is readable at its hash and height zero. -/
theorem storedGenesis_readBlock (db : DB) (h0 : Nat) (b0 : Block)
    (h : storedGenesis db = some (h0, b0)) : readBlock db h0 0 = some b0 := by
  unfold storedGenesis at h
  cases hf : db.blocks.find? (fun p => decide (p.1.2 = 0)) with
  | none => rw [hf] at h; simp at h
  | some p =>
    rw [hf] at h
    simp only [Option.map_some'] at h
    have hp := List.find?_some hf
    have hz : p.1.2 = 0 := of_decide_eq_true hp
    have h1 : p.1.1 = h0 := congrArg Prod.fst (Option.some.inj h)
    have h2 : p.2 = b0 := congrArg Prod.snd (Option.some.inj h)
    have hkey : p.1 = (h0, 0) := by
      cases hk : p.1 with
      | mk u v =>
        rw [hk] at hz h1
        simp at hz h1
        rw [hz, h1]
    have hq : (fun x : (Nat × Nat) × Block => decide (x.1 = (h0, 0))) p = true := by
      simp [hkey]
    have := find?_of_stronger (fun x => decide (x.1.2 = 0))
      (fun x => decide (x.1 = (h0, 0))) db.blocks p hf hq
      (by
        intro x hx
        have hx1 : x.1 = (h0, 0) := of_decide_eq_true hx
        simp [hx1])
    simp [readBlock, lookupBy, this, h2]

/-- In a well-formed database the stored genesis block's hash is the hash it
is stored under. -/
theorem storedGenesis_hash_of_wf (db : DB) (h0 : Nat) (b0 : Block)
    (hwf : DB.wf db) (h : storedGenesis db = some (h0, b0)) : b0.hash = h0 := by
  unfold storedGenesis at h
  cases hf : db.blocks.find? (fun p => decide (p.1.2 = 0)) with
  | none => rw [hf] at h; simp at h
  | some p =>
    rw [hf] at h
    simp only [Option.map_some'] at h
    have h1 : p.1.1 = h0 := congrArg Prod.fst (Option.some.inj h)
    have h2 : p.2 = b0 := congrArg Prod.snd (Option.some.inj h)
    have hmem : p ∈ db.blocks := List.mem_of_find?_eq_some hf
    have := (hwf p hmem).1
    rw [h1, h2] at this
    exact this

/-- Writing a ChainConfig leaves the block map untouched. -/
theorem readBlock_writeChainConfig (db : DB) (h c : Nat) (cfg : ChainConfig)
    (n : Nat) : readBlock (writeChainConfig db h cfg) c n = readBlock db c n := rfl

/-- A freshly written block is readable under its own hash and number. -/
theorem readBlock_writeBlock_self (db : DB) (b : Block) :
    readBlock (writeBlock db b) b.hash b.number = some b := by
  simp [readBlock, writeBlock, lookupBy]

/-- Blocks produced by the Block Builder carry number zero. -/
theorem toBlock_number (g : Genesis) (b : Block) (w : WorldState)
    (h : g.ToBlock = Except.ok (b, w)) : b.number = 0 := by
  unfold Genesis.ToBlock at h
  cases hc : g.config with
  | none => rw [hc] at h; simp at h
  | some cfg =>
    rw [hc] at h
    cases hm : materialize g with
    | error m => rw [hm] at h; simp at h
    | ok st =>
      rw [hm] at h
      simp only [Except.ok.injEq, Prod.mk.injEq] at h
      rw [← h.1]
      rfl

/-- After a successful Commit the genesis block is readable at the returned
hash and height zero, and recomputing its hash gives that hash. -/
theorem commit_readBlock (g : Genesis) (db : DB) (h : Nat) (db1 : DB)
    (hc : g.Commit db = Except.ok (h, db1)) :
    ∃ b, readBlock db1 h 0 = some b ∧ b.hash = h := by
  unfold Genesis.Commit at hc
  cases htb : g.ToBlock with
  | error e => rw [htb] at hc; simp at hc
  | ok p =>
    rw [htb] at hc
    simp only [Except.ok.injEq, Prod.mk.injEq] at hc
    obtain ⟨hh, hdb⟩ := hc
    refine ⟨p.1, ?_, ?_⟩
    · have hn : p.1.number = 0 := toBlock_number g p.1 p.2 (by rw [htb])
      have := readBlock_writeBlock_self (writeState db (stateRoot p.2) p.2) p.1
      rw [hn] at this
      rw [← hdb, ← hh]
      rw [readBlock_writeChainConfig]
      exact this
    · rw [hh]

/-- The default descriptor materializes to the named default block and
state. -/
theorem defaultGenesis_toBlock :
    DefaultGenesis.ToBlock = Except.ok (defaultGenesisBlock, defaultGenesisState) := rfl

set_option maxRecDepth 8000 in
/-- The default genesis block's hash is the published constant. -/
theorem defaultGenesisBlock_hash :
    defaultGenesisBlock.hash = defaultgenesisBlockHash := by decide

set_option maxRecDepth 8000 in
/-- Committing the default descriptor succeeds with the published hash. -/
theorem defaultGenesis_commit (db : DB) :
    DefaultGenesis.Commit db =
      Except.ok (defaultgenesisBlockHash,
        writeChainConfig
          (writeBlock (writeState db (stateRoot defaultGenesisState) defaultGenesisState)
            defaultGenesisBlock)
          defaultgenesisBlockHash DefaultChainconfig) := rfl

/-- When the checker recursion reports an error, the error describes the
first incompatible stored fork entry. -/
theorem checkCompatibleAux_some (candidate : ChainConfig) (head : Nat)
    (l : List (String × Option Nat)) (e : ConfigCompatError)
    (h : checkCompatibleAux candidate head l = some e) :
    ∃ i, ∃ hi : i < l.length,
      errMatchesFork candidate head (l.get ⟨i, hi⟩) e ∧
      ∀ j, ∀ hj : j < l.length, j < i →
        forkIncompatible candidate head (l.get ⟨j, hj⟩) = false := by
  induction l with
  | nil => simp [checkCompatibleAux] at h
  | cons f rest ih =>
    by_cases hf : forkIncompatible candidate head f = true
    · unfold checkCompatibleAux at h
      rw [if_pos hf] at h
      cases h2 : f.2 with
      | none =>
        unfold forkIncompatible at hf
        rw [h2] at hf
        simp at hf
      | some s =>
        have hprops :
            (decide (s ≤ head) && decide (¬ lookupFork candidate f.1 = some s)) = true := by
          unfold forkIncompatible at hf
          rw [h2] at hf
          exact hf
        rw [Bool.and_eq_true] at hprops
        have hsle : s ≤ head := of_decide_eq_true hprops.1
        have hlk : ¬ lookupFork candidate f.1 = some s := of_decide_eq_true hprops.2
        have hev : e = { forkName := f.1, storedHeight := s,
                         candidateHeight := lookupFork candidate f.1,
                         currentHeight := head } := by
          have hh := Option.some.inj h
          rw [← hh, h2]
          rfl
        refine ⟨0, Nat.succ_pos _, ?_, ?_⟩
        · subst hev
          exact ⟨rfl, h2, hsle, rfl, hlk, rfl⟩
        · intro j hj hj0
          exact absurd hj0 (Nat.not_lt_zero j)
    · unfold checkCompatibleAux at h
      rw [if_neg hf] at h
      obtain ⟨i, hi, hmatch, hfirst⟩ := ih h
      refine ⟨i + 1, Nat.succ_lt_succ hi, hmatch, ?_⟩
      intro j hj hji
      cases j with
      | zero =>
        have : forkIncompatible candidate head f = false :=
          Bool.eq_false_iff.mpr hf
        exact this
      | succ k =>
        have hk : k < rest.length := Nat.lt_of_succ_lt_succ hj
        exact hfirst k hk (Nat.lt_of_succ_lt_succ hji)

/-- When some stored fork entry is incompatible the checker recursion does
report an error. -/
theorem checkCompatibleAux_complete (candidate : ChainConfig) (head : Nat)
    (l : List (String × Option Nat))
    (h : ∃ f ∈ l, forkIncompatible candidate head f = true) :
    ∃ e, checkCompatibleAux candidate head l = some e := by
  induction l with
  | nil =>
    obtain ⟨f, hf, _⟩ := h
    exact absurd hf (List.not_mem_nil f)
  | cons f rest ih =>
    by_cases hf : forkIncompatible candidate head f = true
    · refine ⟨{ forkName := f.1, storedHeight := f.2.getD 0,
                candidateHeight := lookupFork candidate f.1,
                currentHeight := head }, ?_⟩
      unfold checkCompatibleAux
      rw [if_pos hf]
    · obtain ⟨x, hx, hxi⟩ := h
      rcases List.mem_cons.mp hx with hx0 | hxr
      · rw [hx0] at hxi
        exact absurd hxi hf
      · obtain ⟨e, he⟩ := ih ⟨x, hxr, hxi⟩
        refine ⟨e, ?_⟩
        unfold checkCompatibleAux
        rw [if_neg hf]
        exact he

/-- When no stored fork entry is incompatible the checker recursion reports
nothing. -/
theorem checkCompatibleAux_none (candidate : ChainConfig) (head : Nat)
    (l : List (String × Option Nat))
    (h : ∀ f ∈ l, forkIncompatible candidate head f = false) :
    checkCompatibleAux candidate head l = none := by
  induction l with
  | nil => rfl
  | cons f rest ih =>
    have hf := h f (List.mem_cons_self f rest)
    unfold checkCompatibleAux
    rw [hf]
    simp only [Bool.false_eq_true, if_false]
    exact ih (fun x hx => h x (List.mem_cons_of_mem f hx))

/-! Claim theorems. -/

/-- Claim C1: with a genesis block already stored at height zero under hash
H, calling SetupGenesisBlock with a user descriptor whose materialized hash
differs returns GenesisMismatchError carrying the stored hash and the
candidate hash, leaves the database unchanged, and the original block
remains readable at height zero. -/
theorem setup_mismatch_reports_and_preserves (db : DB) (g : Genesis)
    (cfg : ChainConfig) (h0 : Nat) (b0 b : Block) (w : WorldState)
    (hg : g.config = some cfg)
    (hs : storedGenesis db = some (h0, b0))
    (htb : g.ToBlock = Except.ok (b, w))
    (hne : ¬ b.hash = h0) :
    SetupGenesisBlock db (some g) =
      { config := cfg, hash := b.hash,
        err := some (GenesisError.genesisMismatch h0 b.hash), db := db } ∧
    readBlock (SetupGenesisBlock db (some g)).db h0 0 = some b0 := by
  have hmain : SetupGenesisBlock db (some g) =
      { config := cfg, hash := b.hash,
        err := some (GenesisError.genesisMismatch h0 b.hash), db := db } := by
    simp [SetupGenesisBlock, hg, hs, htb, hne]
  refine ⟨hmain, ?_⟩
  rw [hmain]
  exact storedGenesis_readBlock db h0 b0 hs

set_option maxRecDepth 8000 in
/-- Witness for C1: the chain-id-6 descriptor committed, then setup with the
chain-id-5 descriptor, exactly as in genesis_test.go. -/
theorem setup_mismatch_reports_and_preserves_witness :
    SetupGenesisBlock dbWithOldCustom (some customg) =
      { config := customConfig, hash := customBlock.hash,
        err := some (GenesisError.genesisMismatch oldCustomBlock.hash customBlock.hash),
        db := dbWithOldCustom } ∧
    readBlock (SetupGenesisBlock dbWithOldCustom (some customg)).db
      oldCustomBlock.hash 0 = some oldCustomBlock :=
  setup_mismatch_reports_and_preserves dbWithOldCustom customg customConfig
    oldCustomBlock.hash oldCustomBlock customBlock customState rfl (by decide)
    rfl (by decide)

/-- Claim C2: a non-nil user descriptor without a ChainConfig fails with
NoConfigError, reports the process-wide default ChainConfig alongside the
error, and performs no database writes. -/
theorem setup_noConfig_default_reported (db : DB) (g : Genesis)
    (hg : g.config = none) :
    SetupGenesisBlock db (some g) =
      { config := DefaultChainconfig, hash := 0,
        err := some GenesisError.noConfig, db := db } := by
  simp [SetupGenesisBlock, hg]

/-- Witness for C2: the empty descriptor (new Genesis) on an empty
database. -/
theorem setup_noConfig_default_reported_witness :
    SetupGenesisBlock emptyDB (some emptyGenesis) =
      { config := DefaultChainconfig, hash := 0,
        err := some GenesisError.noConfig, db := emptyDB } :=
  setup_noConfig_default_reported emptyDB emptyGenesis rfl

/-- Claim C3: on an empty database (no stored config, no block at height
zero) with a nil descriptor, SetupGenesisBlock commits the hard-coded
default descriptor and returns the default ChainConfig and the default
genesis hash with no error. -/
theorem setup_bootstrap_default (db : DB)
    (h1 : storedGenesis db = none) (h2 : db.configs = []) :
    ∃ db1, DefaultGenesis.Commit db = Except.ok (defaultgenesisBlockHash, db1) ∧
      SetupGenesisBlock db none =
        { config := DefaultChainconfig, hash := defaultgenesisBlockHash,
          err := none, db := db1 } := by
  have _hconf := h2
  refine ⟨_, defaultGenesis_commit db, ?_⟩
  simp [SetupGenesisBlock, h1, defaultGenesis_commit db]

set_option maxRecDepth 8000 in
/-- Witness for C3: bootstrapping from the fresh, empty database. -/
theorem setup_bootstrap_default_witness :
    ∃ db1, DefaultGenesis.Commit emptyDB = Except.ok (defaultgenesisBlockHash, db1) ∧
      SetupGenesisBlock emptyDB none =
        { config := DefaultChainconfig, hash := defaultgenesisBlockHash,
          err := none, db := db1 } :=
  setup_bootstrap_default emptyDB rfl rfl

/-- Claim C4: with a genesis block and its ChainConfig already stored, a nil
descriptor makes SetupGenesisBlock return the stored ChainConfig and stored
genesis hash, performing zero database writes. -/
theorem setup_reuse_stored (db : DB) (h0 : Nat) (b0 : Block) (cfg : ChainConfig)
    (hs : storedGenesis db = some (h0, b0))
    (hc : readChainConfig db h0 = some cfg) :
    SetupGenesisBlock db none =
      { config := cfg, hash := h0, err := none, db := db } := by
  simp [SetupGenesisBlock, hs, hc]

set_option maxRecDepth 8000 in
/-- Witness for C4: the default genesis committed, then setup with a nil
descriptor (the "mainnet block in DB" test case). -/
theorem setup_reuse_stored_witness :
    SetupGenesisBlock dbWithDefault none =
      { config := DefaultChainconfig, hash := defaultgenesisBlockHash,
        err := none, db := dbWithDefault } :=
  setup_reuse_stored dbWithDefault defaultgenesisBlockHash defaultGenesisBlock
    DefaultChainconfig (by decide) (by decide)

/-- Claim C6: materializing the same descriptor twice yields blocks with
identical hashes, and the hash is a pure function of the materialized state,
the ChainConfig and the header fields of the descriptor. -/
theorem toBlock_hash_deterministic :
    (∀ (g : Genesis) (b1 b2 : Block) (w1 w2 : WorldState),
        g.ToBlock = Except.ok (b1, w1) → g.ToBlock = Except.ok (b2, w2) →
        b1.hash = b2.hash) ∧
    (∀ (g1 g2 : Genesis) (b1 b2 : Block) (w1 w2 : WorldState),
        g1.ToBlock = Except.ok (b1, w1) → g2.ToBlock = Except.ok (b2, w2) →
        w1 = w2 → g1.config = g2.config → g1.difficulty = g2.difficulty →
        g1.gasLimit = g2.gasLimit → g1.timestamp = g2.timestamp →
        g1.extra = g2.extra → b1.hash = b2.hash) := by
  constructor
  · intro g b1 b2 w1 w2 h1 h2
    rw [h1] at h2
    have := Option.some.inj (congrArg Except.toOption h2)
    rw [(Prod.mk.injEq _ _ _ _).mp this |>.1]
  · intro g1 g2 b1 b2 w1 w2 h1 h2 hw hcfg hd hgl ht he
    unfold Genesis.ToBlock at h1 h2
    cases hc1 : g1.config with
    | none => rw [hc1] at h1; simp at h1
    | some c1 =>
      cases hc2 : g2.config with
      | none => rw [hc2] at h2; simp at h2
      | some c2 =>
        rw [hc1] at h1
        rw [hc2] at h2
        cases hm1 : materialize g1 with
        | error m => rw [hm1] at h1; simp at h1
        | ok s1 =>
          cases hm2 : materialize g2 with
          | error m => rw [hm2] at h2; simp at h2
          | ok s2 =>
            rw [hm1] at h1
            rw [hm2] at h2
            simp only [Except.ok.injEq, Prod.mk.injEq] at h1 h2
            have hcc : c1 = c2 := by
              rw [hc1, hc2] at hcfg
              exact Option.some.inj hcfg
            rw [← h1.1, ← h2.1]
            simp only [Block.hash, hashHeader]
            rw [h1.2, h2.2, hw, hcc, hd, hgl, ht, he]

/-- Witness for C6: the default descriptor materialized twice. -/
theorem toBlock_hash_deterministic_witness :
    defaultGenesisBlock.hash = defaultGenesisBlock.hash :=
  toBlock_hash_deterministic.1 DefaultGenesis defaultGenesisBlock
    defaultGenesisBlock defaultGenesisState defaultGenesisState rfl rfl

/-- Claim C7: whenever some stored fork is activated at or below the current
height and the candidate assigns it a different activation height, the
Compatibility Checker returns a ConfigCompatError, and any returned error
describes the first such fork in protocol activation order — carrying its
name, stored height, candidate height and the current height; when no
already-activated fork differs the checker reports nothing. -/
theorem checkCompatible_first_fork (stored candidate : ChainConfig) (head : Nat) :
    (∀ e, checkCompatible stored candidate head = some e →
      ∃ i, ∃ hi : i < stored.forks.length,
        errMatchesFork candidate head (stored.forks.get ⟨i, hi⟩) e ∧
        ∀ j, ∀ hj : j < stored.forks.length, j < i →
          forkIncompatible candidate head (stored.forks.get ⟨j, hj⟩) = false) ∧
    ((∀ f ∈ stored.forks, forkIncompatible candidate head f = false) →
      checkCompatible stored candidate head = none) ∧
    ((∃ f ∈ stored.forks, forkIncompatible candidate head f = true) →
      ∃ e, checkCompatible stored candidate head = some e) := by
  refine ⟨?_, ?_, ?_⟩
  · intro e h
    exact checkCompatibleAux_some candidate head stored.forks e h
  · intro h
    exact checkCompatibleAux_none candidate head stored.forks h
  · intro h
    exact checkCompatibleAux_complete candidate head stored.forks h

/-- Witness for C7: the spec's worked example — changing only the future
fork G is compatible, while moving the already-activated fork F makes the
checker return an error, namely the one reporting both heights for F. -/
theorem checkCompatible_first_fork_witness :
    checkCompatible storedExample candFuture 150 = none ∧
    (∃ e, checkCompatible storedExample candMoved 150 = some e) ∧
    checkCompatible storedExample candMoved 150 =
      some { forkName := "F", storedHeight := 100, candidateHeight := some 200,
             currentHeight := 150 } :=
  ⟨(checkCompatible_first_fork storedExample candFuture 150).2.1 (by decide),
   (checkCompatible_first_fork storedExample candMoved 150).2.2 (by decide),
   by decide⟩

/-- Claim C8: after any SetupGenesisBlock call on a well-formed database
that returns without error, the block read back at the returned hash and
height zero recomputes to that same hash. -/
theorem setup_block_self_consistent (db : DB) (g : Option Genesis)
    (hwf : DB.wf db) (he : (SetupGenesisBlock db g).err = none) :
    ∃ b, readBlock (SetupGenesisBlock db g).db (SetupGenesisBlock db g).hash 0 =
      some b ∧ b.hash = (SetupGenesisBlock db g).hash := by
  cases g with
  | none =>
    cases hs : storedGenesis db with
    | none =>
      have hc := defaultGenesis_commit db
      have hred : SetupGenesisBlock db none =
          { config := DefaultChainconfig, hash := defaultgenesisBlockHash,
            err := none,
            db := writeChainConfig
              (writeBlock
                (writeState db (stateRoot defaultGenesisState) defaultGenesisState)
                defaultGenesisBlock)
              defaultgenesisBlockHash DefaultChainconfig } := by
        simp [SetupGenesisBlock, hs, hc]
      rw [hred]
      obtain ⟨b, hb, hh⟩ := commit_readBlock DefaultGenesis db
        defaultgenesisBlockHash _ hc
      exact ⟨b, hb, hh⟩
    | some p =>
      obtain ⟨h0, b0⟩ := p
      have hred : SetupGenesisBlock db none =
          { config := (readChainConfig db h0).getD DefaultChainconfig,
            hash := h0, err := none, db := db } := by
        simp [SetupGenesisBlock, hs]
      rw [hred]
      exact ⟨b0, storedGenesis_readBlock db h0 b0 hs,
        storedGenesis_hash_of_wf db h0 b0 hwf hs⟩
  | some g =>
    cases hcfg : g.config with
    | none =>
      have hx : (SetupGenesisBlock db (some g)).err = some GenesisError.noConfig := by
        simp [SetupGenesisBlock, hcfg]
      rw [hx] at he
      cases he
    | some cfg =>
      cases hs : storedGenesis db with
      | none =>
        cases hcm : g.Commit db with
        | error e =>
          have hx : (SetupGenesisBlock db (some g)).err = some e := by
            simp [SetupGenesisBlock, hcfg, hs, hcm]
          rw [hx] at he
          cases he
        | ok p =>
          obtain ⟨h, db1⟩ := p
          have hred : SetupGenesisBlock db (some g) =
              { config := cfg, hash := h, err := none, db := db1 } := by
            simp [SetupGenesisBlock, hcfg, hs, hcm]
          rw [hred]
          obtain ⟨b, hb, hh⟩ := commit_readBlock g db h db1 hcm
          exact ⟨b, hb, hh⟩
      | some p =>
        obtain ⟨h0, b0⟩ := p
        cases htb : g.ToBlock with
        | error e =>
          have hx : (SetupGenesisBlock db (some g)).err = some e := by
            simp [SetupGenesisBlock, hcfg, hs, htb]
          rw [hx] at he
          cases he
        | ok q =>
          obtain ⟨b, w⟩ := q
          by_cases hbh : b.hash = h0
          · have hred : SetupGenesisBlock db (some g) =
                { config := cfg, hash := h0, err := none,
                  db := writeChainConfig db h0 cfg } := by
              simp [SetupGenesisBlock, hcfg, hs, htb, hbh]
            rw [hred]
            refine ⟨b0, ?_, storedGenesis_hash_of_wf db h0 b0 hwf hs⟩
            rw [readBlock_writeChainConfig]
            exact storedGenesis_readBlock db h0 b0 hs
          · have hx : (SetupGenesisBlock db (some g)).err =
                some (GenesisError.genesisMismatch h0 b.hash) := by
              simp [SetupGenesisBlock, hcfg, hs, htb, hbh]
            rw [hx] at he
            cases he

set_option maxRecDepth 8000 in
/-- Witness for C8: bootstrapping the default genesis from the empty
database and reading it back. -/
theorem setup_block_self_consistent_witness :
    ∃ b, readBlock (SetupGenesisBlock emptyDB none).db
        (SetupGenesisBlock emptyDB none).hash 0 = some b ∧
      b.hash = (SetupGenesisBlock emptyDB none).hash :=
  setup_block_self_consistent emptyDB none
    (fun p hp => absurd hp (List.not_mem_nil p)) (by decide)

/-- Claim C9: when block 0 is readable, GetGeneisis returns the map obtained
by JSON-unmarshalling the genesis header's extra-data payload; when block 0
cannot be read it returns an empty map rather than an error. -/
theorem getGeneisis_unmarshals_extra :
    (∀ (parse : List Nat → Option (List (String × String))) (b : Backend)
        (g : Block) (m : List (String × String)),
        b.blockByNumber 0 = Except.ok g → parse g.head.extra = some m →
        GetGeneisis parse b = m) ∧
    (∀ (parse : List Nat → Option (List (String × String))) (b : Backend)
        (e : String),
        b.blockByNumber 0 = Except.error e → GetGeneisis parse b = []) := by
  constructor
  · intro parse b g m hb hp
    simp [GetGeneisis, hb, hp]
  · intro parse b e hb
    simp [GetGeneisis, hb]

/-- Witness for C9: a backend whose block 0 is the default genesis block and
a decoder recognizing its extra-data payload. -/
theorem getGeneisis_unmarshals_extra_witness :
    GetGeneisis witnessParse witnessBackendOk = [("name", "fractal")] :=
  getGeneisis_unmarshals_extra.1 witnessParse witnessBackendOk
    defaultGenesisBlock [("name", "fractal")] rfl (by decide)

/-- Claim C10: when the stored nonce is readable, CompareNonce returns nil
exactly when the stored nonce equals the action nonce, "nonce too high" when
the stored nonce is below it, and "nonce too low" when above; the embedding
is pure, matching the Go function's read-only access to account state. -/
theorem compareNonce_trichotomy (am : AccountManager) (name : String)
    (n actionNonce : Nat) (h : am.GetNonce name = Except.ok n) :
    (CompareNonce am name actionNonce = none ↔ n = actionNonce) ∧
    (n < actionNonce → CompareNonce am name actionNonce = some "nonce too high") ∧
    (actionNonce < n → CompareNonce am name actionNonce = some "nonce too low") := by
  unfold CompareNonce
  rw [h]
  refine ⟨⟨?_, ?_⟩, ?_, ?_⟩
  · intro hc
    by_cases h1 : n < actionNonce
    · simp [h1] at hc
    · by_cases h2 : n > actionNonce
      · simp [h1, h2] at hc
      · omega
  · intro heq
    subst heq
    simp
  · intro h1
    simp [h1]
  · intro h2
    have h1 : ¬ n < actionNonce := by omega
    have h2b : n > actionNonce := h2
    simp [h1, h2b]

/-- Witness for C10: the account "alice" with stored nonce 5 compared
against action nonce 5. -/
theorem compareNonce_trichotomy_witness :
    (CompareNonce witnessAM "alice" 5 = none ↔ (5 : Nat) = 5) ∧
    ((5 : Nat) < 5 → CompareNonce witnessAM "alice" 5 = some "nonce too high") ∧
    ((5 : Nat) < 5 → CompareNonce witnessAM "alice" 5 = some "nonce too low") :=
  compareNonce_trichotomy witnessAM "alice" 5 5 rfl

end Fractal
